import Mathlib

/-!
Verification of the persistent-connection subsystem of the mission-control
repository (`src/lib/gateway-connection.ts`, `src/lib/gateway-hub.ts`).

The stateful `GatewayConnection` class is embedded shallowly: its mutable
fields become a `Conn` record, each handler/method becomes a pure function
`Conn → Conn × List Effect`, and promise settlements, outbound frames and
timer cancellations are recorded as explicit `Effect`s.  Timers are modelled
as booleans (armed / not armed); the WebSocket is modelled by two booleans
(`hasWs`: the `ws` field is non-null, `wsOpen`: `readyState === OPEN`).
-/

namespace MissionControl

/-- The `ConnectionStatus` union from gateway-connection.ts line 30. -/
inductive ConnectionStatus where
  | connecting
  | connected
  | reconnecting
  | error
  | closed
deriving DecidableEq, Repr

/-- The parts of an inbound JSON payload the client inspects:
`payload.nonce` (challenge) and `payload.auth.deviceToken` (handshake
acceptance).  Other payload content is opaque to the connection logic. -/
structure Payload where
  nonce : Option String := none
  deviceToken : Option String := none
deriving DecidableEq, Repr

/-- A parsed inbound frame, mirroring exactly the fields the message handler
reads: `msg.type`, `msg.event`, `msg.id` (`some` iff `typeof msg.id ===
"string"`), the truthiness of `msg.ok`, `msg.payload`, `msg.error.message`. -/
structure Msg where
  type : String
  event : Option String := none
  id : Option String := none
  ok : Bool := false
  payload : Option Payload := none
  errorMessage : Option String := none
deriving DecidableEq, Repr

/-- Outbound frames sent over the socket, keeping the fields the claims
inspect: the connect request carries the current auth token and the echoed
nonce; an RPC request carries its fresh id and the method name. -/
inductive Frame where
  | connectReq (token : String) (nonce : String)
  | rpcReq (id : String) (method : String)
deriving DecidableEq, Repr

/-- Observable effects of one handler/method execution: promise settlements
(`resolve`/`reject` on the in-flight `connect()` promise or on a specific
call's promise), outbound frames, timer cancellations, and event fan-out. -/
inductive Effect where
  | sendFrame (f : Frame)
  | resolveConnect
  | rejectConnect (reason : String)
  | resolveCall (id : String) (p : Option Payload)
  | rejectCall (id : String) (reason : String)
  | clearCallTimer (id : String)
  | emitEvent (name : String) (seq : Nat)
deriving DecidableEq, Repr

/-- The mutable state of one `GatewayConnection`.  `inflight` keeps the ids
of the pending-call table in insertion order (each entry owns a live
deadline timer; removing the entry models `clearTimeout` + `delete`). -/
structure Conn where
  url : String
  token : String
  hasWs : Bool
  wsOpen : Bool
  status : ConnectionStatus
  deviceToken : Option String
  inflight : List String
  pingTimerActive : Bool
  pongTimerActive : Bool
  reconnectTimerActive : Bool
  reconnectAttempt : Nat
  seq : Nat
  destroyed : Bool
deriving DecidableEq, Repr

/-- Field initializers of the class (constructor, lines 46–66). -/
def initConn (url token : String) : Conn :=
  { url := url
    token := token
    hasWs := false
    wsOpen := false
    status := ConnectionStatus.connecting
    deviceToken := none
    inflight := []
    pingTimerActive := false
    pongTimerActive := false
    reconnectTimerActive := false
    reconnectAttempt := 0
    seq := 0
    destroyed := false }

/-- JavaScript `x || default` on an optional string: `undefined` and the
empty string are both falsy. -/
def jsOr (s : Option String) (d : String) : String :=
  match s with
  | some v => if v = "" then d else v
  | none => d

/-- The `BACKOFF_STEPS` table (line 28). -/
def BACKOFF_STEPS : List Nat := [2000, 4000, 8000, 16000, 30000]

/-- Method `stopPing` (lines 324–327): clear both heartbeat timers. -/
def stopPing (c : Conn) : Conn :=
  { c with pingTimerActive := false, pongTimerActive := false }

/-- Method `startPing` (lines 308–322): stop any previous timers, arm the ping
interval.  (The pong deadline is armed per tick, not here.) -/
def startPing (c : Conn) : Conn :=
  { stopPing c with pingTimerActive := true }

/-- Method `drainInflight(err)` (lines 346–352): for every pending entry, clear its
deadline timer, reject its promise with `err`, and delete it. -/
def drainInflight (c : Conn) (reason : String) : Conn × List Effect :=
  ({ c with inflight := [] },
   c.inflight.flatMap fun i => [Effect.clearCallTimer i, Effect.rejectCall i reason])

/-- Method `scheduleReconnect` (lines 331–342): no-op when destroyed; otherwise
read the backoff table at `min(reconnectAttempt, length - 1)`, bump the
attempt counter, and arm the reconnect timer with the returned delay. -/
def scheduleReconnect (c : Conn) : Conn × Option Nat :=
  if c.destroyed then (c, none)
  else
    let delay := BACKOFF_STEPS.getD (min c.reconnectAttempt (BACKOFF_STEPS.length - 1)) 0
    ({ c with reconnectAttempt := c.reconnectAttempt + 1, reconnectTimerActive := true },
     some delay)

/-- JS `Map.set` on a key set whose values we do not track: keep insertion
order, no duplicate keys. -/
def mapSet (l : List String) (i : String) : List String :=
  if l.contains i then l else l ++ [i]

/-- The four message-handler branches that do not `return` are sequential
`if`s in the source; the handshake-accepted and handshake-rejected branches
`return`.  This function mirrors that control flow (lines 177–253).

Branch order: challenge → handshake accepted (returns) → handshake rejected
(returns) → RPC correlation by id → application event → application pong. -/
def handleMessage (c : Conn) (m : Msg) : Conn × List Effect :=
  -- Handshake challenge (lines 182–200): sign and send the connect request.
  let challengeEffs :=
    if m.type = "event" ∧ m.event = some "connect.challenge" then
      [Effect.sendFrame (Frame.connectReq c.token ((m.payload.bind Payload.nonce).getD ""))]
    else []
  -- Handshake accepted (lines 203–212) — matches ANY ok response and returns.
  if m.type = "res" ∧ m.ok = true then
    let c1 := match m.payload.bind Payload.deviceToken with
      | some t => { c with deviceToken := some t }
      | none => c
    let c2 := { c1 with status := ConnectionStatus.connected, reconnectAttempt := 0 }
    (startPing c2, challengeEffs ++ [Effect.resolveConnect])
  -- Handshake rejected (lines 215–219) — returns.
  else if m.type = "res" ∧ m.ok = false ∧ c.status ≠ ConnectionStatus.connected then
    (c, challengeEffs ++ [Effect.rejectConnect (jsOr m.errorMessage "Handshake failed")])
  else
    -- RPC response, correlation by id (lines 222–233).
    let rpc :=
      if m.type = "res" ∧ m.id.isSome then
        let i := m.id.getD ""
        if c.inflight.contains i then
          ({ c with inflight := c.inflight.erase i },
           Effect.clearCallTimer i ::
             (if m.ok then [Effect.resolveCall i m.payload]
              else [Effect.rejectCall i (jsOr m.errorMessage "RPC failed")]))
        else (c, [])
      else (c, [])
    -- Application event (lines 236–247): wrap with `++this.seq` and fan out.
    let evt :=
      if m.type = "event" ∧ m.event ≠ some "connect.challenge" then
        ({ rpc.1 with seq := rpc.1.seq + 1 },
         [Effect.emitEvent (m.event.getD "") (rpc.1.seq + 1)])
      else (rpc.1, [])
    -- Application-level pong (lines 250–252).
    let c6 := if m.type = "pong" then { evt.1 with pongTimerActive := false } else evt.1
    (c6, challengeEffs ++ rpc.2 ++ evt.2)

/-- Result of `connect()` as seen by its caller. -/
inductive ConnectOutcome where
  | rejectedClosed
  | alreadyResolved
  | started
deriving DecidableEq, Repr

/-- Method `connect()` entry (lines 151–164): reject when destroyed, resolve when
already connected, otherwise set status `connecting` and open a fresh
socket (not yet OPEN). -/
def connect (c : Conn) : Conn × ConnectOutcome :=
  if c.destroyed then (c, ConnectOutcome.rejectedClosed)
  else if c.status = ConnectionStatus.connected then (c, ConnectOutcome.alreadyResolved)
  else
    ({ c with status := ConnectionStatus.connecting, hasWs := true, wsOpen := false },
     ConnectOutcome.started)

/-- Result of `call()` as seen by its caller. -/
inductive CallOutcome where
  | rejectedClosed
  | rejectedNotConnected
  | pending
deriving DecidableEq, Repr

/-- Method `call(method, params)` (lines 283–304) with the fresh `crypto.randomUUID`
supplied as `id`: reject when destroyed; reject with `Not connected to url`
when there is no socket or it is not OPEN; otherwise register the pending
entry (arming its deadline timer) and send the request frame. -/
def call (c : Conn) (id method : String) : Conn × CallOutcome × List Effect :=
  if c.destroyed then (c, CallOutcome.rejectedClosed, [])
  else if ¬ (c.hasWs = true ∧ c.wsOpen = true) then (c, CallOutcome.rejectedNotConnected, [])
  else
    ({ c with inflight := mapSet c.inflight id },
     CallOutcome.pending,
     [Effect.sendFrame (Frame.rpcReq id method)])

/-- The per-call deadline timer firing (lines 291–294): delete the entry and
reject with the timeout error. -/
def timeoutFire (c : Conn) (id : String) : Conn × List Effect :=
  ({ c with inflight := c.inflight.erase id },
   [Effect.rejectCall id ("RPC timeout")])

/-- The socket `close` handler (lines 260–267): stop the heartbeat, drain
every pending call with a connection-lost error, and — unless destroyed —
go to `reconnecting` and schedule a retry. -/
def onClose (c : Conn) : Conn × List Effect :=
  let c1 := stopPing c
  let d := drainInflight c1 "Connection closed"
  if ¬ d.1.destroyed then
    ((scheduleReconnect { d.1 with status := ConnectionStatus.reconnecting }).1, d.2)
  else (d.1, d.2)

/-- The socket `error` handler (lines 269–277): only acts while connected;
then stops the heartbeat, drains pending calls with the error, goes to
`reconnecting` and schedules a retry. -/
def onWsError (c : Conn) (reason : String) : Conn × List Effect :=
  if c.status = ConnectionStatus.connected then
    let c1 := stopPing c
    let d := drainInflight c1 reason
    ((scheduleReconnect { d.1 with status := ConnectionStatus.reconnecting }).1, d.2)
  else (c, [])

/-- Method `destroy()` (lines 361–369): mark destroyed, status `closed`, stop the
heartbeat, cancel the reconnect timer, reject all pending calls, terminate
and null out the socket. -/
def destroy (c : Conn) : Conn × List Effect :=
  let c1 := { c with destroyed := true, status := ConnectionStatus.closed }
  let c2 := stopPing c1
  let c3 := { c2 with reconnectTimerActive := false }
  let d := drainInflight c3 "Connection destroyed"
  ({ d.1 with hasWs := false, wsOpen := false }, d.2)

/-- Consecutive failed retries: each failed reconnect attempt invokes
`scheduleReconnect` again (lines 336–341). -/
def afterFailedRetries (c : Conn) : Nat → Conn
  | 0 => c
  | n + 1 => (scheduleReconnect (afterFailedRetries c n)).1

-- ── Auth payload (`buildAndSignAuth`, lines 120–147) ─────────────────────────

/-- The scope list hard-coded at line 123. -/
def SCOPES : List String :=
  ["operator.admin", "operator.read", "operator.write", "operator.pairing",
   "operator.approvals"]

/-- The signed payload's field list (lines 126–138), in source order.
`token` already includes the `?? ""` defaulting (the field is a non-null
string, so it is the token itself). -/
def authPayloadFields (deviceId token nonce : String) (signedAt : Nat) : List String :=
  ["v3", deviceId, "gateway-client", "backend", "operator",
   String.intercalate "," SCOPES, toString signedAt, token, nonce, "darwin", ""]

/-- The exact string signed by `buildAndSignAuth` (line 138: `join("|")`). -/
def buildAuthPayload (deviceId token nonce : String) (signedAt : Nat) : String :=
  String.intercalate "|" (authPayloadFields deviceId token nonce signedAt)

/-- ASCII lower-casing of one character. -/
def lowerChar (c : Char) : Char :=
  if 'A' ≤ c ∧ c ≤ 'Z' then Char.ofNat (c.toNat + 32) else c

/-- Drop leading and trailing whitespace from a character list. -/
def trimChars (l : List Char) : List Char :=
  ((l.dropWhile Char.isWhitespace).reverse.dropWhile Char.isWhitespace).reverse

/-- The platform/device-family normalization described by the spec for this
payload: lower-cased, trimmed, empty string if absent. -/
def normalizeMeta (s : Option String) : String :=
  String.mk ((trimChars (s.getD "").data).map lowerChar)

/-- Modelled from the claim's words (C3): the payload field list the claim
asserts, in the claim's exact order, with no other fields: protocol-version
tag, client identifier, client-kind string, role, comma-joined scopes,
timestamp, auth token, nonce, normalized platform, normalized
device-family. -/
def claimAuthPayloadFields (deviceId token nonce : String)
    (platform deviceFamily : Option String) (signedAt : Nat) : List String :=
  ["v3", deviceId, "gateway-client", "operator",
   String.intercalate "," SCOPES, toString signedAt, token, nonce,
   normalizeMeta platform, normalizeMeta deviceFamily]

/-- Modelled from the amended claim (C3): identical to
`claimAuthPayloadFields` except that a fixed client-mode string comes
between the client-kind string and the role. -/
def amendedAuthPayloadFields (deviceId token nonce : String)
    (platform deviceFamily : Option String) (signedAt : Nat) : List String :=
  ["v3", deviceId, "gateway-client", "backend", "operator",
   String.intercalate "," SCOPES, toString signedAt, token, nonce,
   normalizeMeta platform, normalizeMeta deviceFamily]

-- ── Hub (`gateway-hub.ts`) ───────────────────────────────────────────────────

/-- Lookup by endpoint address in the hub's connection map (insertion
ordered, unique keys). -/
def findConn : List (String × Conn) → String → Option Conn
  | [], _ => none
  | (k, v) :: rest, u => if k = u then some v else findConn rest u

/-- Replace the value stored under a key, keeping order and other entries. -/
def setConn : List (String × Conn) → String → Conn → List (String × Conn)
  | [], _, _ => []
  | (k, v) :: rest, u, c => if k = u then (k, c) :: rest else (k, v) :: setConn rest u c

/-- The `GatewayHub` state: the map from endpoint address to Connection. -/
structure Hub where
  connections : List (String × Conn)
deriving DecidableEq, Repr

/-- Method `GatewayHub.register(url, token)` (lines 38–69): if a connection exists
for the url, overwrite only its stored token and return it; otherwise
create a new connection, store it, and start its first `connect()` in the
background. -/
def hubRegister (h : Hub) (url token : String) : Hub × Conn :=
  match findConn h.connections url with
  | some c =>
    let c1 := { c with token := token }
    ({ connections := setConn h.connections url c1 }, c1)
  | none =>
    let c1 := (connect (initConn url token)).1
    ({ connections := h.connections ++ [(url, c1)] }, c1)

-- ── Environment steps ────────────────────────────────────────────────────────

/-- The operations that can act on a connection after construction: its
public methods, its timer callbacks, and the socket events the transport
can deliver. -/
inductive Op where
  | connectOp
  | socketOpened
  | handleMsg (m : Msg)
  | callOp (id method : String)
  | timeoutOp (id : String)
  | closeEvent
  | errorEvent (reason : String)
  | destroyOp
  | reconnectFire
deriving DecidableEq, Repr

/-- One environment step.  Socket events can only be delivered on a socket
that exists (`open`) or whose frames could still arrive (`message` needs the
socket OPEN); `destroy()` terminates and nulls the socket, after which none
of its events fire except the terminal `close`. -/
def step (c : Conn) (op : Op) : Conn :=
  match op with
  | Op.connectOp => (connect c).1
  | Op.socketOpened => if c.hasWs then { c with wsOpen := true } else c
  | Op.handleMsg m => if c.wsOpen then (handleMessage c m).1 else c
  | Op.callOp id method => (call c id method).1
  | Op.timeoutOp id => (timeoutFire c id).1
  | Op.closeEvent => (onClose { c with wsOpen := false }).1
  | Op.errorEvent reason => (onWsError c reason).1
  | Op.destroyOp => (destroy c).1
  | Op.reconnectFire =>
    -- the reconnect timer fires `connect()`; a rejection re-schedules
    let r := connect c
    match r.2 with
    | ConnectOutcome.rejectedClosed => (scheduleReconnect r.1).1
    | _ => r.1

/-- Iterated environment steps. -/
def steps (c : Conn) : List Op → Conn
  | [] => c
  | op :: rest => steps (step c op) rest

/-- Status values other than the never-assigned `error`. -/
def validStatus : ConnectionStatus → Bool
  | ConnectionStatus.error => false
  | _ => true

/-- What `destroy()` establishes and every later operation preserves:
permanently destroyed, terminal `closed` status, no socket. -/
def destroyedInv (c : Conn) : Prop :=
  c.destroyed = true
  ∧ c.status = ConnectionStatus.closed
  ∧ c.hasWs = false
  ∧ c.wsOpen = false

-- ── Concrete fixtures used by closed theorems and witnesses ──────────────────

/-- A connection that completed its handshake, holds a session token and has
one pending call `call-1`. -/
def gwConnected : Conn :=
  { initConn "ws://gw" "tok" with
      status := ConnectionStatus.connected
      hasWs := true
      wsOpen := true
      pingTimerActive := true
      deviceToken := some "tok-A"
      inflight := ["call-1"] }

/-- A successful RPC response frame for the pending call `call-1`. -/
def okResCall1 : Msg :=
  { type := "res", id := some "call-1", ok := true, payload := some {} }

/-- A failed RPC response frame for the pending call `call-1`. -/
def errResCall1 : Msg :=
  { type := "res", id := some "call-1", ok := false, errorMessage := some "boom" }

/-- An ok response frame whose id matches no pending call, carrying a new
session token. -/
def mUnknownOk : Msg :=
  { type := "res", id := some "nope", ok := true,
    payload := some { deviceToken := some "tok-B" } }

/-- A handshake-acceptance frame. -/
def acceptMsg : Msg :=
  { type := "res", id := some "h1", ok := true,
    payload := some { deviceToken := some "dev-tok" } }

/-- A fresh connection taken through `connect()`, the socket opening, and a
successful handshake. -/
def c6ready : Conn :=
  steps (initConn "ws://gw" "tok") [Op.connectOp, Op.socketOpened, Op.handleMsg acceptMsg]

/-- State `c6ready` after issuing `call("config.get")` with fresh id `id1`. -/
def c6afterCall : Conn := (call c6ready "id1" "config.get").1

/-- The server's successful response to that call. -/
def okResponse1 : Msg :=
  { type := "res", id := some "id1", ok := true, payload := some {} }

/-- A connection with two pending calls, used to instantiate drain results. -/
def c5fix : Conn :=
  { gwConnected with inflight := ["a", "b"] }

/-- A hub holding one registered connection. -/
def h8fix : Hub := { connections := [("ws://gw", gwConnected)] }

end MissionControl

namespace MissionControl

-- ── Theorems ─────────────────────────────────────────────────────────────────

-- Small projection lemmas about `scheduleReconnect`.

theorem scheduleReconnect_fst_status (c : Conn) :
    (scheduleReconnect c).1.status = c.status := by
  unfold scheduleReconnect; split <;> rfl

theorem scheduleReconnect_fst_destroyed (c : Conn) :
    (scheduleReconnect c).1.destroyed = c.destroyed := by
  unfold scheduleReconnect; split <;> rfl

theorem scheduleReconnect_fst_inflight (c : Conn) :
    (scheduleReconnect c).1.inflight = c.inflight := by
  unfold scheduleReconnect; split <;> rfl

theorem scheduleReconnect_fst_hasWs (c : Conn) :
    (scheduleReconnect c).1.hasWs = c.hasWs := by
  unfold scheduleReconnect; split <;> rfl

theorem scheduleReconnect_fst_wsOpen (c : Conn) :
    (scheduleReconnect c).1.wsOpen = c.wsOpen := by
  unfold scheduleReconnect; split <;> rfl

theorem scheduleReconnect_fst_attempt (c : Conn) (h : c.destroyed = false) :
    (scheduleReconnect c).1.reconnectAttempt = c.reconnectAttempt + 1 := by
  unfold scheduleReconnect
  simp [h]

theorem scheduleReconnect_snd (c : Conn) (h : c.destroyed = false) :
    (scheduleReconnect c).2 = some (BACKOFF_STEPS.getD (min c.reconnectAttempt 4) 0) := by
  unfold scheduleReconnect
  simp [h, BACKOFF_STEPS]

theorem scheduleReconnect_snd_of_destroyed (c : Conn) (h : c.destroyed = true) :
    (scheduleReconnect c).2 = none := by
  unfold scheduleReconnect
  simp [h]

theorem afterFailedRetries_destroyed (c : Conn) (n : Nat) :
    (afterFailedRetries c n).destroyed = c.destroyed := by
  induction n with
  | zero => rfl
  | succ n ih => rw [afterFailedRetries, scheduleReconnect_fst_destroyed, ih]

theorem afterFailedRetries_attempt (c : Conn) (h : c.destroyed = false) (n : Nat) :
    (afterFailedRetries c n).reconnectAttempt = c.reconnectAttempt + n := by
  induction n with
  | zero => rfl
  | succ n ih =>
    rw [afterFailedRetries,
      scheduleReconnect_fst_attempt _ (by rw [afterFailedRetries_destroyed]; exact h), ih]
    omega

/-- Any ok response resets the attempt counter to zero and sets the status
to `connected` (the handshake-accepted branch). -/
theorem handleMessage_ok_res (c : Conn) (m : Msg) (ht : m.type = "res")
    (hok : m.ok = true) :
    (handleMessage c m).1.reconnectAttempt = 0
    ∧ (handleMessage c m).1.status = ConnectionStatus.connected := by
  unfold handleMessage
  cases h : m.payload.bind Payload.deviceToken <;>
    simp [ht, hok, h, startPing, stopPing]

/-- C1 (code bug evaluated on the code): with a completed handshake and the
call `call-1` pending, the server's ok response frame carrying `call-1`'s own
identifier does NOT settle that call — the handler's handshake-accepted
branch matches every ok response and returns before the id-correlation
branch, so the only settlement effect is a (no-op) resolve of the connect
promise and the entry stays pending.  The not-ok path, by contrast, does
reject the call by its id with the server error. -/
theorem c1_ok_response_never_settles_call :
    (handleMessage gwConnected okResCall1).1.inflight = ["call-1"]
    ∧ (handleMessage gwConnected okResCall1).2 = [Effect.resolveConnect]
    ∧ (handleMessage gwConnected errResCall1).1.inflight = []
    ∧ (handleMessage gwConnected errResCall1).2 =
        [Effect.clearCallTimer "call-1", Effect.rejectCall "call-1" "boom"] := by
  refine ⟨rfl, rfl, rfl, rfl⟩

/-- C6 (code bug evaluated on the code): before any socket exists `call()`
rejects with the not-connected error; after `connect()`, the socket opening
and a successful handshake, the same call is accepted and becomes pending;
but the server's ok response carrying that call's id never resolves it (the
entry stays in the pending table and no per-call settlement effect is
produced), so the call cannot succeed — it can only time out or be
rejected. -/
theorem c6_call_cannot_succeed_after_handshake :
    (call (initConn "ws://gw" "tok") "id1" "config.get").2.1
        = CallOutcome.rejectedNotConnected
    ∧ c6ready.status = ConnectionStatus.connected
    ∧ (call c6ready "id1" "config.get").2.1 = CallOutcome.pending
    ∧ (handleMessage c6afterCall okResponse1).1.inflight = ["id1"]
    ∧ (handleMessage c6afterCall okResponse1).2 = [Effect.resolveConnect] := by
  refine ⟨rfl, rfl, rfl, by decide, by decide⟩

/-- C2 counterexample: an ok response frame whose identifier matches no
pending call does change the connection state — here it overwrites the
session token (and restarts the heartbeat), because the handshake-accepted
branch matches every ok response. -/
theorem c2_cex_ok_unknown_id_changes_state :
    gwConnected.deviceToken = some "tok-A"
    ∧ (handleMessage gwConnected mUnknownOk).1.deviceToken = some "tok-B"
    ∧ decide ((handleMessage gwConnected mUnknownOk).1 = gwConnected) = false := by
  refine ⟨rfl, rfl, by decide⟩

/-- C3 counterexample: the signed payload has eleven pipe-joined fields —
there is a fixed client-mode field between the client-kind string and the
role — while the claim's field list (in the claim's exact order, with no
other fields) has ten; on concrete inputs the two strings differ. -/
theorem c3_cex_payload_has_extra_mode_field :
    (authPayloadFields "dev" "tok" "non" 5).length = 11
    ∧ (claimAuthPayloadFields "dev" "tok" "non" (some "darwin") none 5).length = 10
    ∧ decide (buildAuthPayload "dev" "tok" "non" 5 =
        String.intercalate "|"
          (claimAuthPayloadFields "dev" "tok" "non" (some "darwin") none 5)) = false := by
  refine ⟨rfl, rfl, by decide⟩

/-- C3 (amended): for every client identifier, auth token, nonce and
timestamp, `buildAndSignAuth` signs the pipe-joined payload whose fields
are, in this exact order: the protocol-version tag, the client identifier,
the fixed client-kind string, the fixed client-mode string, the role, the
comma-joined scope list, the timestamp, the auth token, the nonce, and the
normalized platform and device-family fields — with no other fields. -/
theorem c3_amended_payload_shape (d t n : String) (s : Nat) :
    buildAuthPayload d t n s =
      String.intercalate "|" (amendedAuthPayloadFields d t n (some "darwin") none s) := by
  have h1 : normalizeMeta (some "darwin") = "darwin" := by decide
  have h2 : normalizeMeta none = "" := by decide
  simp [buildAuthPayload, authPayloadFields, amendedAuthPayloadFields, h1, h2]

/-- Closed instance of `c3_amended_payload_shape` at concrete inputs. -/
theorem c3_amended_payload_shape_witness :
    buildAuthPayload "dev" "tok" "non" 5 =
      String.intercalate "|" (amendedAuthPayloadFields "dev" "tok" "non" (some "darwin") none 5) :=
  c3_amended_payload_shape "dev" "tok" "non" 5

/-- C4: starting from a non-destroyed connection whose attempt counter was
reset by a successful connect, the n-th consecutively scheduled retry waits
the n-th entry of the fixed backoff table; every retry past the table's
length waits its last value (30000 ms); a retry is scheduled on every
failure (retries are unbounded); any ok handshake response resets the
attempt counter to zero; and with the counter reset the next scheduled
delay is 2000 ms again. -/
theorem c4_backoff_schedule (c : Conn) (hd : c.destroyed = false)
    (h0 : c.reconnectAttempt = 0) :
    (∀ n, (scheduleReconnect (afterFailedRetries c n)).2 =
        some (BACKOFF_STEPS.getD (min n 4) 0))
    ∧ (∀ n, 4 ≤ n → (scheduleReconnect (afterFailedRetries c n)).2 = some 30000)
    ∧ (∀ n, (scheduleReconnect (afterFailedRetries c n)).2 ≠ none)
    ∧ (∀ (c' : Conn) (m : Msg), m.type = "res" → m.ok = true →
        (handleMessage c' m).1.reconnectAttempt = 0)
    ∧ (∀ c' : Conn, c'.destroyed = false → c'.reconnectAttempt = 0 →
        (scheduleReconnect c').2 = some 2000) := by
  have hdn : ∀ n, (afterFailedRetries c n).destroyed = false := fun n => by
    rw [afterFailedRetries_destroyed]; exact hd
  have key : ∀ n, (scheduleReconnect (afterFailedRetries c n)).2 =
      some (BACKOFF_STEPS.getD (min n 4) 0) := fun n => by
    rw [scheduleReconnect_snd _ (hdn n), afterFailedRetries_attempt c hd, h0]
    simp
  refine ⟨key, fun n hn => ?_, fun n => by rw [key]; simp, ?_, ?_⟩
  · rw [key, Nat.min_eq_right hn]; rfl
  · exact fun c' m ht hok => (handleMessage_ok_res c' m ht hok).1
  · intro c' hd' h0'
    rw [scheduleReconnect_snd _ hd', h0']
    rfl

/-- Closed instance of `c4_backoff_schedule`: the seventh consecutive retry
of a fresh connection waits the capped 30000 ms. -/
theorem c4_backoff_schedule_witness :
    (scheduleReconnect (afterFailedRetries (initConn "ws://gw" "tok") 6)).2 = some 30000 :=
  (c4_backoff_schedule (initConn "ws://gw" "tok") rfl rfl).2.1 6 (by omega)

/-- C5: a transport close drains the pending-call table: every pending
call's deadline timer is cleared and its promise rejected with the
connection-lost error, and the table is empty afterwards. -/
theorem c5_transport_close_drains_pending (c : Conn) :
    (onClose c).1.inflight = []
    ∧ (onClose c).2 = c.inflight.flatMap
        (fun i => [Effect.clearCallTimer i, Effect.rejectCall i "Connection closed"])
    ∧ ∀ i, i ∈ c.inflight →
        Effect.clearCallTimer i ∈ (onClose c).2
        ∧ Effect.rejectCall i "Connection closed" ∈ (onClose c).2 := by
  have h1 : (onClose c).1.inflight = [] := by
    unfold onClose
    simp only [drainInflight]
    split <;> simp [scheduleReconnect_fst_inflight]
  have h2 : (onClose c).2 = c.inflight.flatMap
      (fun i => [Effect.clearCallTimer i, Effect.rejectCall i "Connection closed"]) := by
    unfold onClose
    simp only [drainInflight]
    split <;> simp [stopPing]
  refine ⟨h1, h2, fun i hi => ?_⟩
  rw [h2]
  constructor <;> exact List.mem_flatMap.mpr ⟨i, hi, by simp⟩

/-- Closed instance of `c5_transport_close_drains_pending` on a connection
with two pending calls. -/
theorem c5_transport_close_drains_pending_witness :
    (onClose c5fix).1.inflight = []
    ∧ Effect.rejectCall "a" "Connection closed" ∈ (onClose c5fix).2 :=
  ⟨(c5_transport_close_drains_pending c5fix).1,
   ((c5_transport_close_drains_pending c5fix).2.2 "a" (by decide)).2⟩

/-- C7: while the status is still `connecting` (no successful connect yet),
a not-ok handshake response leaves the connection state — in particular the
status — unchanged, and its only effect is to reject the in-flight
`connect()` promise with the server-supplied reason. -/
theorem c7_handshake_reject_keeps_connecting (c : Conn) (m : Msg) (r : String)
    (hst : c.status = ConnectionStatus.connecting)
    (ht : m.type = "res") (hok : m.ok = false)
    (he : m.errorMessage = some r) (hr : r ≠ "") :
    (handleMessage c m).1 = c
    ∧ (handleMessage c m).1.status = ConnectionStatus.connecting
    ∧ (handleMessage c m).2 = [Effect.rejectConnect r] := by
  have hne : c.status ≠ ConnectionStatus.connected := by rw [hst]; decide
  have : handleMessage c m = (c, [Effect.rejectConnect r]) := by
    unfold handleMessage
    simp [ht, hok, hne, jsOr, he, hr]
  rw [this]
  exact ⟨rfl, hst, rfl⟩

/-- Closed instance of `c7_handshake_reject_keeps_connecting` on a fresh
connection and a concrete rejection frame. -/
theorem c7_handshake_reject_keeps_connecting_witness :
    (handleMessage (initConn "ws://gw" "tok")
        { type := "res", ok := false, errorMessage := some "denied" }).1
      = initConn "ws://gw" "tok"
    ∧ (handleMessage (initConn "ws://gw" "tok")
        { type := "res", ok := false, errorMessage := some "denied" }).1.status
      = ConnectionStatus.connecting
    ∧ (handleMessage (initConn "ws://gw" "tok")
        { type := "res", ok := false, errorMessage := some "denied" }).2
      = [Effect.rejectConnect "denied"] :=
  c7_handshake_reject_keeps_connecting (initConn "ws://gw" "tok")
    { type := "res", ok := false, errorMessage := some "denied" } "denied"
    rfl rfl rfl rfl (by decide)

/-- C2 (amended): a not-ok response frame whose identifier matches no
pending call leaves the entire connection state unchanged (it may still
reject a not-yet-settled `connect()` promise, which is a promise settlement,
not connection state). -/
theorem c2_amended_not_ok_unknown_id_no_state_change (c : Conn) (m : Msg)
    (ht : m.type = "res") (hok : m.ok = false)
    (hid : ∀ i, m.id = some i → c.inflight.contains i = false) :
    (handleMessage c m).1 = c := by
  have hev : ("res" : String) ≠ "event" := by decide
  have hpo : ("res" : String) ≠ "pong" := by decide
  by_cases hst : c.status = ConnectionStatus.connected
  · cases hmid : m.id with
    | none => simp [handleMessage, ht, hok, hst, hmid, hev, hpo]
    | some i =>
      have hmem : i ∉ c.inflight := by simpa using hid i hmid
      simp [handleMessage, ht, hok, hst, hmid, hmem, hev, hpo]
  · simp [handleMessage, ht, hok, hst]

/-- Closed instance of `c2_amended_not_ok_unknown_id_no_state_change`. -/
theorem c2_amended_not_ok_unknown_id_no_state_change_witness :
    (handleMessage gwConnected { type := "res", ok := false, id := some "zz" }).1
      = gwConnected :=
  c2_amended_not_ok_unknown_id_no_state_change gwConnected
    { type := "res", ok := false, id := some "zz" } rfl rfl
    (fun i hi => by
      simp only [Option.some.injEq] at hi
      subst hi
      decide)

-- Lemmas about the hub's connection map.

theorem findConn_setConn (l : List (String × Conn)) (u : String) (c v : Conn)
    (h : findConn l u = some v) : findConn (setConn l u c) u = some c := by
  induction l with
  | nil => simp [findConn] at h
  | cons p rest ih =>
    obtain ⟨k, w⟩ := p
    by_cases hk : k = u
    · simp [findConn, setConn, hk]
    · simp only [findConn, setConn, hk, if_false, if_neg hk] at h ⊢
      exact ih h

theorem setConn_length (l : List (String × Conn)) (u : String) (c : Conn) :
    (setConn l u c).length = l.length := by
  induction l with
  | nil => rfl
  | cons p rest ih =>
    obtain ⟨k, w⟩ := p
    by_cases hk : k = u <;> simp [setConn, hk, ih]

/-- C8: registering an endpoint that already has a connection returns that
very connection with only its stored token replaced — status, socket,
pending calls and session token are untouched, no new connection is added,
the stored entry is the returned one — and the next handshake payload's
auth-token field carries the new token. -/
theorem c8_register_is_idempotent (h : Hub) (url t2 : String) (c : Conn)
    (hc : findConn h.connections url = some c) :
    (hubRegister h url t2).2 = { c with token := t2 }
    ∧ (hubRegister h url t2).2.token = t2
    ∧ (hubRegister h url t2).2.hasWs = c.hasWs
    ∧ (hubRegister h url t2).2.wsOpen = c.wsOpen
    ∧ (hubRegister h url t2).2.status = c.status
    ∧ (hubRegister h url t2).2.inflight = c.inflight
    ∧ (hubRegister h url t2).2.deviceToken = c.deviceToken
    ∧ findConn (hubRegister h url t2).1.connections url = some (hubRegister h url t2).2
    ∧ (hubRegister h url t2).1.connections.length = h.connections.length
    ∧ (∀ d n s, (authPayloadFields d (hubRegister h url t2).2.token n s).getD 7 "" = t2) := by
  have hreg : hubRegister h url t2 =
      ({ connections := setConn h.connections url { c with token := t2 } },
       { c with token := t2 }) := by
    unfold hubRegister
    rw [hc]
  rw [hreg]
  refine ⟨rfl, rfl, rfl, rfl, rfl, rfl, rfl, ?_, ?_, ?_⟩
  · exact findConn_setConn _ _ _ _ hc
  · exact setConn_length _ _ _
  · intro d n s
    rfl

/-- Closed instance of `c8_register_is_idempotent` on a one-entry hub. -/
theorem c8_register_is_idempotent_witness :
    (hubRegister h8fix "ws://gw" "tok2").2 = { gwConnected with token := "tok2" }
    ∧ (hubRegister h8fix "ws://gw" "tok2").2.status = gwConnected.status
    ∧ (hubRegister h8fix "ws://gw" "tok2").1.connections.length
        = h8fix.connections.length :=
  ⟨(c8_register_is_idempotent h8fix "ws://gw" "tok2" gwConnected (by decide)).1,
   (c8_register_is_idempotent h8fix "ws://gw" "tok2" gwConnected (by decide)).2.2.2.2.1,
   (c8_register_is_idempotent h8fix "ws://gw" "tok2" gwConnected (by decide)).2.2.2.2.2.2.2.2.1⟩

-- The destroyed invariant is established by `destroy` and preserved by
-- every later operation.

theorem destroy_establishes_inv (c : Conn) : destroyedInv (destroy c).1 := by
  unfold destroy drainInflight stopPing destroyedInv
  simp

theorem step_preserves_inv (c : Conn) (op : Op) (h : destroyedInv c) :
    destroyedInv (step c op) := by
  obtain ⟨hd, hst, hws, hwo⟩ := h
  cases op with
  | connectOp =>
    have : connect c = (c, ConnectOutcome.rejectedClosed) := by
      unfold connect; simp [hd]
    simp [step, this]
    exact ⟨hd, hst, hws, hwo⟩
  | socketOpened =>
    simp [step, hws]
    exact ⟨hd, hst, hws, hwo⟩
  | handleMsg m =>
    simp [step, hwo]
    exact ⟨hd, hst, hws, hwo⟩
  | callOp id method =>
    have : call c id method = (c, CallOutcome.rejectedClosed, []) := by
      unfold call; simp [hd]
    simp [step, this]
    exact ⟨hd, hst, hws, hwo⟩
  | timeoutOp id =>
    simp [step, timeoutFire, destroyedInv]
    exact ⟨hd, hst, hws, hwo⟩
  | closeEvent =>
    simp only [step, onClose, drainInflight, stopPing]
    simp [hd, hst, hws, destroyedInv]
  | errorEvent reason =>
    have : c.status ≠ ConnectionStatus.connected := by rw [hst]; decide
    simp [step, onWsError, this]
    exact ⟨hd, hst, hws, hwo⟩
  | destroyOp =>
    exact destroy_establishes_inv c
  | reconnectFire =>
    have h1 : connect c = (c, ConnectOutcome.rejectedClosed) := by
      unfold connect; simp [hd]
    have h2 : scheduleReconnect c = (c, none) := by
      unfold scheduleReconnect; simp [hd]
    simp [step, h1, h2]
    exact ⟨hd, hst, hws, hwo⟩

theorem steps_preserves_inv (c : Conn) (ops : List Op) (h : destroyedInv c) :
    destroyedInv (steps c ops) := by
  induction ops generalizing c with
  | nil => exact h
  | cons op rest ih => exact ih _ (step_preserves_inv c op h)

/-- C9: `destroy()` rejects every pending call (clearing its deadline
timer), empties the pending table, sets the terminal `closed` status, and
the resulting connection is permanently unusable: after any sequence of
later operations the status is still `closed`, `connect()` and `call()`
still reject immediately, and no reconnection is ever scheduled. -/
theorem c9_destroy_is_permanent (c : Conn) :
    (∀ i, i ∈ c.inflight →
        Effect.clearCallTimer i ∈ (destroy c).2
        ∧ Effect.rejectCall i "Connection destroyed" ∈ (destroy c).2)
    ∧ (destroy c).1.status = ConnectionStatus.closed
    ∧ (destroy c).1.inflight = []
    ∧ (∀ ops : List Op,
        (steps (destroy c).1 ops).status = ConnectionStatus.closed
        ∧ (connect (steps (destroy c).1 ops)).2 = ConnectOutcome.rejectedClosed
        ∧ (∀ id method,
            (call (steps (destroy c).1 ops) id method).2.1 = CallOutcome.rejectedClosed)
        ∧ (scheduleReconnect (steps (destroy c).1 ops)).2 = none) := by
  have heff : (destroy c).2 = c.inflight.flatMap
      (fun i => [Effect.clearCallTimer i, Effect.rejectCall i "Connection destroyed"]) := rfl
  refine ⟨fun i hi => ?_, rfl, rfl, fun ops => ?_⟩
  · rw [heff]
    constructor <;> exact List.mem_flatMap.mpr ⟨i, hi, by simp⟩
  · obtain ⟨hd, hst, _, _⟩ := steps_preserves_inv _ ops (destroy_establishes_inv c)
    refine ⟨hst, ?_, fun id method => ?_, scheduleReconnect_snd_of_destroyed _ hd⟩
    · unfold connect; simp [hd]
    · unfold call; simp [hd]

/-- Closed instance of `c9_destroy_is_permanent`: the pending call is
rejected and the connection stays closed and unusable across later
operations. -/
theorem c9_destroy_is_permanent_witness :
    Effect.rejectCall "call-1" "Connection destroyed" ∈ (destroy gwConnected).2
    ∧ (steps (destroy gwConnected).1 [Op.connectOp, Op.closeEvent]).status
        = ConnectionStatus.closed
    ∧ (connect (steps (destroy gwConnected).1 [Op.connectOp, Op.closeEvent])).2
        = ConnectOutcome.rejectedClosed :=
  ⟨((c9_destroy_is_permanent gwConnected).1 "call-1" (by decide)).2,
   ((c9_destroy_is_permanent gwConnected).2.2.2 [Op.connectOp, Op.closeEvent]).1,
   ((c9_destroy_is_permanent gwConnected).2.2.2 [Op.connectOp, Op.closeEvent]).2.1⟩

-- The message handler only ever leaves the status alone or sets `connected`.

theorem handleMessage_status (c : Conn) (m : Msg) :
    (handleMessage c m).1.status = c.status
    ∨ (handleMessage c m).1.status = ConnectionStatus.connected := by
  by_cases hA : m.type = "res" ∧ m.ok = true
  · exact Or.inr (handleMessage_ok_res c m hA.1 hA.2).2
  · left
    by_cases hB : m.type = "res" ∧ m.ok = false ∧ c.status ≠ ConnectionStatus.connected
    · simp [handleMessage, hA, hB]
    · simp only [handleMessage, hA, hB, if_false]
      split_ifs <;> rfl

theorem step_preserves_validStatus (c : Conn) (op : Op)
    (h : validStatus c.status = true) : validStatus (step c op).status = true := by
  cases op with
  | connectOp =>
    simp only [step]
    unfold connect
    split_ifs <;> first | exact h | rfl
  | socketOpened =>
    simp only [step]
    split_ifs <;> exact h
  | handleMsg m =>
    simp only [step]
    split_ifs with hw
    · rcases handleMessage_status c m with hs | hs <;> rw [hs]
      · exact h
      · rfl
    · exact h
  | callOp id method =>
    simp only [step]
    unfold call
    split_ifs <;> exact h
  | timeoutOp id =>
    exact h
  | closeEvent =>
    simp only [step]
    unfold onClose
    simp only [drainInflight]
    split
    · rw [scheduleReconnect_fst_status]; rfl
    · exact h
  | errorEvent reason =>
    simp only [step]
    unfold onWsError
    split
    · simp only [drainInflight]
      rw [scheduleReconnect_fst_status]; rfl
    · exact h
  | destroyOp =>
    rfl
  | reconnectFire =>
    by_cases hd : c.destroyed = true
    · have hcn : connect c = (c, ConnectOutcome.rejectedClosed) := by
        unfold connect; simp [hd]
      simp only [step, hcn]
      rw [scheduleReconnect_fst_status]
      exact h
    · by_cases hc : c.status = ConnectionStatus.connected
      · have hcn : connect c = (c, ConnectOutcome.alreadyResolved) := by
          unfold connect; simp [hd, hc]
        simp only [step, hcn]
        exact h
      · have hcn : connect c =
            ({ c with status := ConnectionStatus.connecting, hasWs := true, wsOpen := false },
             ConnectOutcome.started) := by
          unfold connect; simp [hd, hc]
        simp only [step, hcn]
        rfl

theorem steps_preserves_validStatus (c : Conn) (ops : List Op)
    (h : validStatus c.status = true) : validStatus (steps c ops).status = true := by
  induction ops generalizing c with
  | nil => exact h
  | cons op rest ih => exact ih _ (step_preserves_validStatus c op h)

/-- C10: in every state reachable from a freshly constructed connection by
any sequence of operations (connect, socket events, message handling,
calls, timeouts, disconnects, destroy, reconnect timer), the status is one
of `connecting`, `connected`, `reconnecting`, `closed` — the declared
`error` value is never assigned. -/
theorem c10_error_status_never_assigned (url token : String) (ops : List Op) :
    validStatus (steps (initConn url token) ops).status = true :=
  steps_preserves_validStatus (initConn url token) ops rfl

/-- Closed instance of `c10_error_status_never_assigned`. -/
theorem c10_error_status_never_assigned_witness :
    validStatus (steps (initConn "ws://gw" "tok")
        [Op.connectOp, Op.socketOpened, Op.handleMsg acceptMsg, Op.closeEvent]).status
      = true :=
  c10_error_status_never_assigned "ws://gw" "tok"
    [Op.connectOp, Op.socketOpened, Op.handleMsg acceptMsg, Op.closeEvent]

end MissionControl
